import Mathlib

/-!
Shallow embedding of the cfddns daemon (src/main.rs): the address-consensus
resolver, the retry wrapper, the record-cache update path, and the
reconciliation loop body, together with theorems settling the spec claims.

Network effects are modelled by passing each call's observable outcome in
explicitly: a provider query becomes a `ProviderResult`, a Cloudflare API
call becomes the `Except` value the corresponding Rust function would have
returned.
-/

namespace Cfddns

/-- Stand-in for `std::net::Ipv4Addr`: only equality of addresses is ever
inspected by the program, so the payload is abstracted to a `Nat`. -/
structure Ipv4Addr where
  val : Nat
deriving DecidableEq

/-- Stand-in for `std::net::Ipv6Addr`. -/
structure Ipv6Addr where
  val : Nat
deriving DecidableEq

/-- `std::net::IpAddr`: an address tagged by family. -/
inductive IpAddr
  | V4 (a : Ipv4Addr)
  | V6 (a : Ipv6Addr)
deriving DecidableEq

/-- The observable outcome of one GET against one provider endpoint, covering
the three `continue` branches of the loop in `query_ip_providers`
(main.rs:105-132) and the successful parse. -/
inductive ProviderResult
  | sendError     -- `provider_client.get(url).send()` returned `Err`
  | textError     -- `response.text()` returned `Err`
  | parseError    -- the trimmed body did not parse as an `IpAddr`
  | parsed (ip : IpAddr)
deriving DecidableEq

/-- `enum IpQueryError` (main.rs:28-31). -/
inductive IpQueryError
  | ConsensusMismatch (first : IpAddr) (conflict : IpAddr)
  | NoIpAvailable (reason : String)
deriving DecidableEq

/-- `min_agreement` (main.rs:96). -/
def min_agreement : Nat := 2

/-- The `for &provider_url in providers` loop of `query_ip_providers`
(main.rs:100-150): `addr` is the running first-accepted address and `n` the
agreement counter; a response that is not `parsed` is skipped, a parsed
response that disagrees with `addr` aborts with `ConsensusMismatch`. -/
def consensus_loop : List ProviderResult → Option IpAddr → Nat →
    Except IpQueryError (Option IpAddr × Nat)
  | [], addr, n => .ok (addr, n)
  | r :: rest, addr, n =>
    match r with
    | .parsed new_ip =>
      match addr with
      | some current =>
        if current ≠ new_ip then
          .error (.ConsensusMismatch current new_ip)
        else
          consensus_loop rest addr (n + 1)
      | none => consensus_loop rest (some new_ip) (n + 1)
    | _ => consensus_loop rest addr n

/-- `query_ip_providers` (main.rs:89-157), with the per-endpoint network
outcomes passed in as `responses`.  After the loop, success requires both an
accepted address and `n_agreement > min_agreement` (main.rs:152). -/
def query_ip_providers (responses : List ProviderResult) :
    Except IpQueryError IpAddr :=
  match consensus_loop responses none 0 with
  | .error e => .error e
  | .ok (some ip, n) =>
    if n > min_agreement then .ok ip
    else .error (.NoIpAvailable "No providers were reachable.")
  | .ok (none, _) => .error (.NoIpAvailable "No providers were reachable.")

/-- The successfully-parsed addresses among a list of provider outcomes. -/
def parsedIps (responses : List ProviderResult) : List IpAddr :=
  responses.filterMap fun r =>
    match r with
    | .parsed ip => some ip
    | _ => none

/-- The responses one attempt observes: the same provider list, in the same
order, is queried on every attempt; only the network outcomes (`responses`,
indexed by attempt number and provider URL) may differ between attempts. -/
def attempt_responses (providers : List String)
    (responses : Nat → String → ProviderResult) (i : Nat) :
    List ProviderResult :=
  providers.map (responses i)

/-- The `for _ in 0..retries` loop of `query_with_retries` (main.rs:169-187):
`i` is the attempt number, the second argument the attempts remaining.  The
second component of the result counts the calls made to
`query_ip_providers`. -/
def query_with_retries_loop (providers : List String)
    (responses : Nat → String → ProviderResult) :
    Nat → Nat → Option IpAddr × Nat
  | _, 0 => (none, 0)
  | i, k + 1 =>
    match query_ip_providers (attempt_responses providers responses i) with
    | .ok addr => (some addr, 1)
    | .error _ =>
      let r := query_with_retries_loop providers responses (i + 1) k
      (r.1, r.2 + 1)

/-- `query_with_retries` (main.rs:163-190): retry `query_ip_providers` up to
`retries` times, returning the first success, or `none` after exhausting all
attempts.  Also returns how many times `query_ip_providers` was invoked. -/
def query_with_retries (providers : List String)
    (responses : Nat → String → ProviderResult) (retries : Nat) :
    Option IpAddr × Nat :=
  query_with_retries_loop providers responses 0 retries

/-- `enum CloudflareAPIError` (main.rs:34-41), payloads abstracted away. -/
inductive CloudflareAPIError
  | ConnectionError
  | MissingDomain
  | ResponseParseError
  | JsonParseError
  | JsonFormatError
  | ResponseError
deriving DecidableEq

/-- The observable outcomes of the two Cloudflare write calls available to
one `update_or_create_record` invocation: what
`cloudflare_update_dns_record` (main.rs:400-430) respectively
`cloudflare_create_new_dns_record` (main.rs:352-394) would return if
called. -/
structure Gateway where
  update_result : Except CloudflareAPIError Bool
  create_result : Except CloudflareAPIError String

/-- The `known_dns_ids : HashMap<(String, String), String>` record cache
(main.rs:583), as a lookup function from (full name, record type) to the
cached record id. -/
def RecordMap : Type := String × String → Option String

/-- `HashMap::insert`: the new binding shadows any previous one. -/
def mapInsert (key : String × String) (id : String) (m : RecordMap) :
    RecordMap :=
  fun k => if k = key then some id else m k

/-- Which Cloudflare write endpoint a call to `update_or_create_record`
hits: `update` = `cloudflare_update_dns_record` (PATCH an existing record),
`create` = `cloudflare_create_new_dns_record` (POST a new record). -/
inductive IssuedOp
  | update
  | create
deriving DecidableEq

/-- The operation `update_or_create_record` issues, determined by its
`match record_id` (main.rs:445): a cached id means update, none means
create. -/
def issued_op : Option String → IssuedOp
  | some _ => .update
  | none => .create

/-- `update_or_create_record` (main.rs:436-488): with a cached id, PATCH and
return the provider's success flag (an API error becomes `false`) and no new
id; without one, POST and on success return `true` with the new record id,
on failure `(false, none)`. -/
def update_or_create_record (gw : Gateway) (record_id : Option String) :
    Bool × Option String :=
  match record_id with
  | some _id =>
    match gw.update_result with
    | .ok success => (success, none)
    | .error _ => (false, none)
  | none =>
    match gw.create_result with
    | .ok id => (true, some id)
    | .error _ => (false, none)

/-- `update_dns_record` (main.rs:495-523): look the (name, kind) key up in
the cache, dispatch to `update_or_create_record`, and insert a newly created
id into the cache.  Returns the success flag, the updated cache, and which
operation was issued. -/
def update_dns_record (gw : Gateway) (domain : String) (ip : IpAddr)
    (record_type : String) (known_ids : RecordMap) :
    Bool × RecordMap × IssuedOp :=
  let key := (domain, record_type)
  let record_id := known_ids key
  let res := update_or_create_record gw record_id
  let known_ids' : RecordMap :=
    match res.2 with
    | some id => mapInsert key id known_ids
    | none => known_ids
  (res.1, known_ids', issued_op record_id)

/-- The `ipv4_cache != ipv4` comparison of the Deciding step
(main.rs:639-654), for one address family: returns (dirty flag, new cache
value).  The cache is set to the new value whenever it differs; the dirty
flag additionally requires the new value to be present. -/
def decide_family {α : Type} [DecidableEq α] (cache newVal : Option α) :
    Bool × Option α :=
  if cache ≠ newVal then (newVal.isSome, newVal) else (false, cache)

/-- One DNS write issued during the Updating step: the record name, its
kind ("A" or "AAAA"), the address written, and whether it was an update or a
create. -/
structure WriteOp where
  name : String
  rtype : String
  content : IpAddr
  op : IssuedOp
deriving DecidableEq

/-- Per (full name, record type) outcomes of the Cloudflare write calls of
one cycle; each pair is written at most once per cycle. -/
def GatewayEnv : Type := String → String → Gateway

/-- The body of the `for subdomain in &subdomains` update loop
(main.rs:664-698) for one subdomain: write the A record if IPv4 is cached
and dirty, then the AAAA record if IPv6 is cached and dirty; a failed write
marks the cycle failed, but the batch continues. -/
def process_one (env : GatewayEnv) (domain : String)
    (ipv4_cache : Option Ipv4Addr) (ipv6_cache : Option Ipv6Addr)
    (update_v4 update_v6 : Bool) (s : String) (m : RecordMap)
    (failed : Bool) : RecordMap × Bool × List WriteOp :=
  let full := s ++ "." ++ domain
  let r4 : RecordMap × Bool × List WriteOp :=
    match ipv4_cache, update_v4 with
    | some ip, true =>
      let u := update_dns_record (env full "A") full (IpAddr.V4 ip) "A" m
      (u.2.1, failed || !u.1, [⟨full, "A", IpAddr.V4 ip, u.2.2⟩])
    | _, _ => (m, failed, [])
  let r6 : RecordMap × Bool × List WriteOp :=
    match ipv6_cache, update_v6 with
    | some ip, true =>
      let u := update_dns_record (env full "AAAA") full (IpAddr.V6 ip)
        "AAAA" r4.1
      (u.2.1, r4.2.1 || !u.1, [⟨full, "AAAA", IpAddr.V6 ip, u.2.2⟩])
    | _, _ => (r4.1, r4.2.1, [])
  (r6.1, r6.2.1, r4.2.2 ++ r6.2.2)

/-- Iterates `process_one` over the subdomain list, threading the cache and
failure flag and concatenating the issued writes. -/
def process_subdomains (env : GatewayEnv) (domain : String)
    (ipv4_cache : Option Ipv4Addr) (ipv6_cache : Option Ipv6Addr)
    (update_v4 update_v6 : Bool) :
    List String → RecordMap → Bool → RecordMap × Bool × List WriteOp
  | [], m, failed => (m, failed, [])
  | s :: rest, m, failed =>
    let r := process_one env domain ipv4_cache ipv6_cache
      update_v4 update_v6 s m failed
    let rr := process_subdomains env domain ipv4_cache ipv6_cache
      update_v4 update_v6 rest r.1 r.2.1
    (rr.1, rr.2.1, r.2.2 ++ rr.2.2)

/-- The mutable state threaded through the main loop (main.rs:583,617,626):
the two last-known-address caches, the record-id cache, and the
consecutive-failure counter. -/
structure LoopState where
  ipv4_cache : Option Ipv4Addr
  ipv6_cache : Option Ipv6Addr
  known_dns_ids : RecordMap
  failure_count : Nat

/-- `sleep_time` (main.rs:532). -/
def sleep_time : Nat := 600

/-- `max_failures` (main.rs:625). -/
def max_failures : Nat := 5

/-- One iteration of the main `loop` (main.rs:630-725), with the discovery
results `ipv4`/`ipv6` passed in: decide dirtiness and update the address
caches, skip all writes when both caches are empty (cycle failed) or when
nothing is dirty, otherwise run the update batch; then step the failure
counter and choose the sleep duration.  Returns the new state, the
`cycle_failed` flag, the writes issued, and the seconds slept. -/
def run_cycle (env : GatewayEnv) (domain : String) (subdomains : List String)
    (ipv4 : Option Ipv4Addr) (ipv6 : Option Ipv6Addr) (st : LoopState) :
    LoopState × Bool × List WriteOp × Nat :=
  let d4 := decide_family st.ipv4_cache ipv4
  let d6 := decide_family st.ipv6_cache ipv6
  let body : RecordMap × Bool × List WriteOp :=
    if d4.2.isNone && d6.2.isNone then
      (st.known_dns_ids, true, [])
    else if !d4.1 && !d6.1 then
      (st.known_dns_ids, false, [])
    else
      process_subdomains env domain d4.2 d6.2 d4.1 d6.1
        subdomains st.known_dns_ids false
  let failure_count := if body.2.1 then st.failure_count + 1 else 0
  let sleep_secs :=
    if failure_count > max_failures then sleep_time * 5 else sleep_time
  (⟨d4.2, d6.2, body.1, failure_count⟩, body.2.1, body.2.2, sleep_secs)

@[simp]
lemma parsedIps_nil : parsedIps [] = [] := rfl

@[simp]
lemma parsedIps_parsed_cons (ip : IpAddr) (rest : List ProviderResult) :
    parsedIps (.parsed ip :: rest) = ip :: parsedIps rest := rfl

@[simp]
lemma parsedIps_sendError_cons (rest : List ProviderResult) :
    parsedIps (.sendError :: rest) = parsedIps rest := rfl

@[simp]
lemma parsedIps_textError_cons (rest : List ProviderResult) :
    parsedIps (.textError :: rest) = parsedIps rest := rfl

@[simp]
lemma parsedIps_parseError_cons (rest : List ProviderResult) :
    parsedIps (.parseError :: rest) = parsedIps rest := rfl

/-- If every parsed response equals the already-accepted address `a`, the
loop completes, keeping `a` and adding one agreement per parsed response. -/
lemma consensus_loop_agree (a : IpAddr) (l : List ProviderResult)
    (h : ∀ ip ∈ parsedIps l, ip = a) (n : Nat) :
    consensus_loop l (some a) n = .ok (some a, n + (parsedIps l).length) := by
  induction l generalizing n with
  | nil => simp [consensus_loop]
  | cons r rest ih =>
    cases r with
    | parsed ip =>
      have hip : ip = a := h ip (by simp)
      have hrest : ∀ x ∈ parsedIps rest, x = a := by
        intro x hmem; exact h x (by simp [hmem])
      have harith : n + (parsedIps (ProviderResult.parsed ip :: rest)).length
          = (n + 1) + (parsedIps rest).length := by simp; omega
      rw [harith]
      simp [consensus_loop, hip, ih hrest (n + 1)]
    | sendError => simpa [consensus_loop] using ih (fun x hmem => h x hmem) n
    | textError => simpa [consensus_loop] using ih (fun x hmem => h x hmem) n
    | parseError => simpa [consensus_loop] using ih (fun x hmem => h x hmem) n

/-- Starting from no accepted address, a list whose parsed responses all
equal `a` completes with `a` accepted (or nothing, if none parsed) and the
agreement counter equal to the number of parsed responses. -/
lemma consensus_loop_from_none (a : IpAddr) (l : List ProviderResult)
    (h : ∀ ip ∈ parsedIps l, ip = a) (n : Nat) :
    consensus_loop l none n =
      if parsedIps l = [] then .ok (none, n)
      else .ok (some a, n + (parsedIps l).length) := by
  induction l generalizing n with
  | nil => simp [consensus_loop]
  | cons r rest ih =>
    cases r with
    | parsed ip =>
      have hip : ip = a := h ip (by simp)
      have hrest : ∀ x ∈ parsedIps rest, x = a := by
        intro x hmem; exact h x (by simp [hmem])
      have harith : n + (ip :: parsedIps rest).length
          = (n + 1) + (parsedIps rest).length := by simp; omega
      simp only [parsedIps_parsed_cons, reduceCtorEq, if_neg, List.cons_ne_nil,
        not_false_iff]
      rw [harith]
      simp [consensus_loop, hip, consensus_loop_agree a rest hrest (n + 1)]
    | sendError =>
      simpa [consensus_loop] using ih (fun x hmem => h x hmem) n
    | textError =>
      simpa [consensus_loop] using ih (fun x hmem => h x hmem) n
    | parseError =>
      simpa [consensus_loop] using ih (fun x hmem => h x hmem) n

/-- Processing an appended list runs the first part, then continues with its
accumulated state, mirroring that the loop returns early on mismatch. -/
lemma consensus_loop_append (l₁ l₂ : List ProviderResult) :
    ∀ (addr : Option IpAddr) (n : Nat),
      consensus_loop (l₁ ++ l₂) addr n =
        match consensus_loop l₁ addr n with
        | .ok (addr', n') => consensus_loop l₂ addr' n'
        | .error e => .error e := by
  induction l₁ with
  | nil => intro addr n; simp [consensus_loop]
  | cons r rest ih =>
    intro addr n
    cases r with
    | parsed ip =>
      cases addr with
      | some current =>
        by_cases hc : current = ip
        · subst hc; simp [consensus_loop, ih]
        · simp [consensus_loop, hc]
      | none => simp [consensus_loop, ih]
    | sendError => simp [consensus_loop, ih]
    | textError => simp [consensus_loop, ih]
    | parseError => simp [consensus_loop, ih]

/-- C1, counterexample: two concurring parsed responses reach exactly
`min_agreement` agreements, yet `query_ip_providers` fails with
`NoIpAvailable` instead of succeeding, because success requires the counter
to strictly exceed `min_agreement` (main.rs:152). -/
theorem claim1_counterexample :
    (parsedIps [ProviderResult.parsed (IpAddr.V4 ⟨1⟩),
        ProviderResult.parsed (IpAddr.V4 ⟨1⟩)]).length = min_agreement
    ∧ query_ip_providers [ProviderResult.parsed (IpAddr.V4 ⟨1⟩),
        ProviderResult.parsed (IpAddr.V4 ⟨1⟩)]
      = .error (.NoIpAvailable "No providers were reachable.") :=
  ⟨rfl, rfl⟩

/-- C1 (amended): if strictly more than `min_agreement` successfully-parsed
responses concur on the same address and no successfully-parsed response
disagrees, `query_ip_providers` returns that address as a success. -/
theorem claim1_consensus_success (l : List ProviderResult) (a : IpAddr)
    (hall : ∀ ip ∈ parsedIps l, ip = a)
    (hlen : min_agreement < (parsedIps l).length) :
    query_ip_providers l = .ok a := by
  have hne : ¬ parsedIps l = [] := by
    intro hnil
    rw [hnil] at hlen
    simp [min_agreement] at hlen
  rw [query_ip_providers, consensus_loop_from_none a l hall 0]
  simp only [hne, if_false, Nat.zero_add]
  simp [hlen]

/-- C1 witness: three concurring responses exceed the threshold and
succeed. -/
theorem claim1_consensus_success_witness :
    query_ip_providers [ProviderResult.parsed (IpAddr.V4 ⟨7⟩),
        ProviderResult.parsed (IpAddr.V4 ⟨7⟩),
        ProviderResult.parsed (IpAddr.V4 ⟨7⟩)]
      = .ok (IpAddr.V4 ⟨7⟩) :=
  claim1_consensus_success _ _ (by decide) (by decide)

/-- C2: once the loop has accepted a first address `a`, a later
successfully-parsed response `b ≠ a` makes `query_ip_providers` return the
disagreement error naming both addresses, whatever responses would have
followed (`l₂` is arbitrary and never examined). -/
theorem claim2_disagreement_fails_fast (l₁ l₂ : List ProviderResult)
    (a b : IpAddr) (n : Nat)
    (hfirst : consensus_loop l₁ none 0 = .ok (some a, n))
    (hne : b ≠ a) :
    query_ip_providers (l₁ ++ ProviderResult.parsed b :: l₂)
      = .error (.ConsensusMismatch a b) := by
  have hab : a ≠ b := fun h => hne h.symm
  rw [query_ip_providers, consensus_loop_append, hfirst]
  simp [consensus_loop, hab]

/-- C2 witness: the second provider disagrees with the first; the third is
never consulted and the error names first accepted then conflicting. -/
theorem claim2_disagreement_fails_fast_witness :
    query_ip_providers ([ProviderResult.parsed (IpAddr.V4 ⟨1⟩)]
        ++ ProviderResult.parsed (IpAddr.V4 ⟨2⟩)
          :: [ProviderResult.parsed (IpAddr.V4 ⟨1⟩)])
      = .error (.ConsensusMismatch (IpAddr.V4 ⟨1⟩) (IpAddr.V4 ⟨2⟩)) :=
  claim2_disagreement_fails_fast _ _ _ _ 1 rfl (by decide)

/-- C3: when at least three endpoints return the identical address and no
successfully-parsed endpoint returns a different one, `query_ip_providers`
returns that address. -/
theorem claim3_three_identical_succeed (l : List ProviderResult) (a : IpAddr)
    (hall : ∀ ip ∈ parsedIps l, ip = a)
    (hlen : 3 ≤ (parsedIps l).length) :
    query_ip_providers l = .ok a := by
  have hne : ¬ parsedIps l = [] := by
    intro hnil
    rw [hnil] at hlen
    simp at hlen
  have hgt : min_agreement < (parsedIps l).length := by
    simp only [min_agreement]; omega
  rw [query_ip_providers, consensus_loop_from_none a l hall 0]
  simp only [hne, if_false, Nat.zero_add]
  simp [hgt]

/-- C3 witness: three identical parsed responses (with an unreachable
provider interleaved) succeed. -/
theorem claim3_three_identical_succeed_witness :
    query_ip_providers [ProviderResult.parsed (IpAddr.V6 ⟨3⟩),
        ProviderResult.sendError,
        ProviderResult.parsed (IpAddr.V6 ⟨3⟩),
        ProviderResult.parsed (IpAddr.V6 ⟨3⟩)]
      = .ok (IpAddr.V6 ⟨3⟩) :=
  claim3_three_identical_succeed _ _ (by decide) (by decide)

/-- C4: with fewer than `min_agreement + 1` successfully-parsed responses
and no disagreement among them, `query_ip_providers` fails with the
"no address available" error — neither a success nor a disagreement
error. -/
theorem claim4_insufficient_agreement (l : List ProviderResult)
    (hpair : ∀ x ∈ parsedIps l, ∀ y ∈ parsedIps l, x = y)
    (hlen : (parsedIps l).length < min_agreement + 1) :
    query_ip_providers l
      = .error (.NoIpAvailable "No providers were reachable.") := by
  cases hp : parsedIps l with
  | nil =>
    have hall : ∀ ip ∈ parsedIps l, ip = IpAddr.V4 ⟨0⟩ := by
      intro ip hmem; rw [hp] at hmem; cases hmem
    rw [query_ip_providers, consensus_loop_from_none (IpAddr.V4 ⟨0⟩) l hall 0]
    simp [hp]
  | cons a rest =>
    have hall : ∀ ip ∈ parsedIps l, ip = a := by
      intro ip hmem
      exact hpair ip hmem a (by rw [hp]; exact List.mem_cons_self a rest)
    have hnotgt : ¬ (0 + (parsedIps l).length > min_agreement) := by
      simp only [min_agreement] at hlen ⊢
      omega
    have hne : ¬ parsedIps l = [] := by rw [hp]; simp
    rw [query_ip_providers, consensus_loop_from_none a l hall 0]
    simp only [hne, if_false]
    simp [hnotgt]
    simp only [min_agreement] at hlen ⊢
    omega

/-- C4 witness: two agreeing parsed responses and one unreachable provider
fall short of the threshold and yield "no address available". -/
theorem claim4_insufficient_agreement_witness :
    query_ip_providers [ProviderResult.parsed (IpAddr.V4 ⟨9⟩),
        ProviderResult.parseError,
        ProviderResult.parsed (IpAddr.V4 ⟨9⟩)]
      = .error (.NoIpAvailable "No providers were reachable.") :=
  claim4_insufficient_agreement _ (by decide) (by decide)

/-- If a success is reached after `k` failing attempts, the retry loop
returns it, having made `k + 1` calls. -/
lemma query_with_retries_loop_success (providers : List String)
    (responses : Nat → String → ProviderResult) :
    ∀ (k remaining i : Nat) (a : IpAddr), k < remaining →
      (∀ j, j < k → ∃ e, query_ip_providers
          (attempt_responses providers responses (i + j)) = .error e) →
      query_ip_providers (attempt_responses providers responses (i + k))
        = .ok a →
      query_with_retries_loop providers responses i remaining
        = (some a, k + 1) := by
  intro k
  induction k with
  | zero =>
    intro remaining i a hk _hfail hok
    cases remaining with
    | zero => omega
    | succ m =>
      rw [Nat.add_zero] at hok
      simp [query_with_retries_loop, hok]
  | succ k ih =>
    intro remaining i a hk hfail hok
    cases remaining with
    | zero => omega
    | succ m =>
      obtain ⟨e, he⟩ := hfail 0 (Nat.succ_pos k)
      rw [Nat.add_zero] at he
      have hfail' : ∀ j, j < k → ∃ e, query_ip_providers
          (attempt_responses providers responses (i + 1 + j)) = .error e := by
        intro j hj
        have := hfail (j + 1) (by omega)
        rwa [show i + (j + 1) = i + 1 + j by omega] at this
      have hok' : query_ip_providers
          (attempt_responses providers responses (i + 1 + k)) = .ok a := by
        rwa [show i + (k + 1) = i + 1 + k by omega] at hok
      have := ih m (i + 1) a (by omega) hfail' hok'
      simp [query_with_retries_loop, he, this]

/-- If every attempt fails, the retry loop returns no address after making
exactly `remaining` calls. -/
lemma query_with_retries_loop_allfail (providers : List String)
    (responses : Nat → String → ProviderResult)
    (hfail : ∀ j, ∃ e, query_ip_providers
        (attempt_responses providers responses j) = .error e) :
    ∀ (remaining i : Nat),
      query_with_retries_loop providers responses i remaining
        = (none, remaining) := by
  intro remaining
  induction remaining with
  | zero => intro i; rfl
  | succ m ih =>
    intro i
    obtain ⟨e, he⟩ := hfail i
    simp [query_with_retries_loop, he, ih (i + 1)]

/-- C5: the retry wrapper re-runs `query_ip_providers` over the same
provider list on every attempt.  If the resolver fails on the first `k`
attempts (`k < retries`) and then succeeds with `a`, the wrapper returns
`some a`; if every attempt fails, it returns `none` — not an error value —
after invoking the resolver exactly `retries` times. -/
theorem claim5_retry_wrapper (providers : List String)
    (responses : Nat → String → ProviderResult) (retries : Nat) :
    (∀ (k : Nat) (a : IpAddr), k < retries →
      (∀ j, j < k → ∃ e, query_ip_providers
          (attempt_responses providers responses j) = .error e) →
      query_ip_providers (attempt_responses providers responses k) = .ok a →
      query_with_retries providers responses retries = (some a, k + 1))
    ∧ ((∀ j, ∃ e, query_ip_providers
          (attempt_responses providers responses j) = .error e) →
      query_with_retries providers responses retries = (none, retries)) := by
  constructor
  · intro k a hk hfail hok
    have hfail' : ∀ j, j < k → ∃ e, query_ip_providers
        (attempt_responses providers responses (0 + j)) = .error e := by
      intro j hj
      simpa using hfail j hj
    have hok' : query_ip_providers
        (attempt_responses providers responses (0 + k)) = .ok a := by
      simpa using hok
    exact query_with_retries_loop_success providers responses k retries 0 a
      hk hfail' hok'
  · intro hfail
    exact query_with_retries_loop_allfail providers responses hfail retries 0

/-- C5 witness: three providers; first attempt unreachable, second attempt
unanimous, so the wrapper returns the address after two calls; if every
attempt is unreachable the wrapper makes exactly 5 calls and returns
`none`. -/
theorem claim5_retry_wrapper_witness :
    query_with_retries ["p1", "p2", "p3"]
        (fun i _ => if i = 0 then .sendError else .parsed (IpAddr.V4 ⟨9⟩)) 5
      = (some (IpAddr.V4 ⟨9⟩), 2)
    ∧ query_with_retries ["p1", "p2", "p3"] (fun _ _ => .sendError) 5
      = (none, 5) :=
  ⟨(claim5_retry_wrapper ["p1", "p2", "p3"]
      (fun i _ => if i = 0 then .sendError else .parsed (IpAddr.V4 ⟨9⟩)) 5).1
    1 (IpAddr.V4 ⟨9⟩) (by decide)
    (by
      intro j hj
      have hj0 : j = 0 := by omega
      subst hj0
      exact ⟨.NoIpAvailable "No providers were reachable.", rfl⟩)
    rfl,
   (claim5_retry_wrapper ["p1", "p2", "p3"] (fun _ _ => .sendError) 5).2
    (fun _j => ⟨.NoIpAvailable "No providers were reachable.", rfl⟩)⟩

/-- C6, counterexample: starting from an empty cache, when the create call
of the first `update_dns_record` fails, no id is cached, so the second call
issues another create — not an update. -/
theorem claim6_counterexample :
    (update_dns_record ⟨.ok true, .error .ResponseError⟩ "home.example.com"
        (IpAddr.V4 ⟨5⟩) "A"
        (update_dns_record ⟨.ok true, .error .ResponseError⟩
          "home.example.com" (IpAddr.V4 ⟨5⟩) "A" (fun _ => none)).2.1).2.2
      = IssuedOp.create :=
  rfl

/-- C6 (amended): if the first `update_dns_record` call for (name, kind)
reports success, or the cache already held an id for (name, kind), then the
cache holds an id for (name, kind) after the first call, so a second call
with the same key — whatever the provider answers either time — issues an
update, not a create. -/
theorem claim6_second_call_updates (gw₁ gw₂ : Gateway)
    (domain record_type : String) (ip₁ ip₂ : IpAddr) (m : RecordMap)
    (h : (update_dns_record gw₁ domain ip₁ record_type m).1 = true
       ∨ (m (domain, record_type)).isSome = true) :
    (update_dns_record gw₂ domain ip₂ record_type
        (update_dns_record gw₁ domain ip₁ record_type m).2.1).2.2
      = IssuedOp.update := by
  cases hm : m (domain, record_type) with
  | some id =>
    cases hu : gw₁.update_result with
    | ok success =>
      simp [update_dns_record, update_or_create_record, hm, hu, issued_op]
    | error e =>
      simp [update_dns_record, update_or_create_record, hm, hu, issued_op]
  | none =>
    have hsucc : (update_dns_record gw₁ domain ip₁ record_type m).1 = true := by
      rcases h with hs | hcached
      · exact hs
      · rw [hm] at hcached
        cases hcached
    cases hc : gw₁.create_result with
    | ok id =>
      simp [update_dns_record, update_or_create_record, hm, hc, mapInsert,
        issued_op]
    | error e =>
      exfalso
      simp [update_dns_record, update_or_create_record, hm, hc] at hsucc

/-- C6 witness, both antecedents: a successful create caches the new id and
the next call for the same (name, kind) issues an update; and with an id
already cached, even a first call whose update fails (success=false) leaves
the id cached, so the next call still issues an update. -/
theorem claim6_second_call_updates_witness :
    (update_dns_record ⟨.ok true, .ok "rec1"⟩ "home.example.com"
        (IpAddr.V4 ⟨5⟩) "A"
        (update_dns_record ⟨.ok true, .ok "rec1"⟩ "home.example.com"
          (IpAddr.V4 ⟨5⟩) "A" (fun _ => none)).2.1).2.2
      = IssuedOp.update
    ∧ (update_dns_record ⟨.ok true, .ok "rec2"⟩ "home.example.com"
        (IpAddr.V4 ⟨5⟩) "A"
        (update_dns_record ⟨.ok false, .error .ResponseError⟩
          "home.example.com" (IpAddr.V4 ⟨5⟩) "A"
          (fun k => if k = ("home.example.com", "A") then some "rec0"
            else none)).2.1).2.2
      = IssuedOp.update :=
  ⟨claim6_second_call_updates ⟨.ok true, .ok "rec1"⟩ ⟨.ok true, .ok "rec1"⟩
    "home.example.com" "A" (IpAddr.V4 ⟨5⟩) (IpAddr.V4 ⟨5⟩) (fun _ => none)
    (Or.inl rfl),
   claim6_second_call_updates ⟨.ok false, .error .ResponseError⟩
    ⟨.ok true, .ok "rec2"⟩ "home.example.com" "A" (IpAddr.V4 ⟨5⟩)
    (IpAddr.V4 ⟨5⟩)
    (fun k => if k = ("home.example.com", "A") then some "rec0" else none)
    (Or.inr (by decide))⟩

/-- C7: in the Deciding step, a family is dirty exactly when the newly
discovered value differs from the cache and is present; an absent new value
is never dirty (so never triggers a write); and the cache is set to the new
value — present or absent — whether or not the family was dirty. -/
theorem claim7_deciding_step (α : Type) [DecidableEq α]
    (cache newVal : Option α) :
    ((decide_family cache newVal).1 = true
      ↔ newVal ≠ cache ∧ newVal.isSome = true)
    ∧ (decide_family cache (none : Option α)).1 = false
    ∧ (decide_family cache newVal).2 = newVal := by
  refine ⟨?_, ?_, ?_⟩
  · by_cases h : cache = newVal
    · subst h
      simp [decide_family]
    · have h' : newVal ≠ cache := fun hx => h hx.symm
      simp [decide_family, h, h']
  · by_cases h : cache = (none : Option α)
    · subst h
      simp [decide_family]
    · simp [decide_family, h]
  · by_cases h : cache = newVal
    · subst h
      simp [decide_family]
    · simp [decide_family, h]

/-- C7 witness: concrete deciding step — a changed present address is
dirty, an absent one is not, and the cache takes the new value. -/
theorem claim7_deciding_step_witness :
    ((decide_family (some (Ipv4Addr.mk 1)) (some (Ipv4Addr.mk 2))).1 = true
      ↔ some (Ipv4Addr.mk 2) ≠ some (Ipv4Addr.mk 1)
        ∧ (some (Ipv4Addr.mk 2)).isSome = true)
    ∧ (decide_family (some (Ipv4Addr.mk 1)) (none : Option Ipv4Addr)).1
        = false
    ∧ (decide_family (some (Ipv4Addr.mk 1)) (some (Ipv4Addr.mk 2))).2
        = some (Ipv4Addr.mk 2) :=
  claim7_deciding_step Ipv4Addr (some ⟨1⟩) (some ⟨2⟩)

/-- A write to (domain, rtype) leaves every other cache key unchanged. -/
lemma update_dns_record_frame (gw : Gateway) (domain : String) (ip : IpAddr)
    (rtype : String) (m : RecordMap) (key : String × String)
    (hk : key ≠ (domain, rtype)) :
    (update_dns_record gw domain ip rtype m).2.1 key = m key := by
  simp only [update_dns_record]
  cases h : (update_or_create_record gw (m (domain, rtype))).2 with
  | none => simp [h]
  | some id => simp [h, mapInsert, hk]

/-- With IPv4 not dirty and IPv6 cached and dirty, the update batch issues
exactly one AAAA write per subdomain and leaves every non-AAAA cache entry
unchanged. -/
lemma process_subdomains_v6_only (env : GatewayEnv) (domain : String)
    (v4c : Option Ipv4Addr) (a : Ipv6Addr) :
    ∀ (subs : List String) (m : RecordMap) (failed : Bool),
      ((process_subdomains env domain v4c (some a) false true
          subs m failed).2.2.map fun w => (w.name, w.rtype))
        = subs.map (fun s => (s ++ "." ++ domain, "AAAA"))
      ∧ ∀ key : String × String, key.2 ≠ "AAAA" →
          (process_subdomains env domain v4c (some a) false true
            subs m failed).1 key = m key := by
  intro subs
  induction subs with
  | nil =>
    intro m failed
    exact ⟨rfl, fun _ _ => rfl⟩
  | cons s rest ih =>
    intro m failed
    have hframe : ∀ key : String × String, key.2 ≠ "AAAA" →
        (update_dns_record (env (s ++ "." ++ domain) "AAAA")
          (s ++ "." ++ domain) (IpAddr.V6 a) "AAAA" m).2.1 key = m key := by
      intro key hkey
      refine update_dns_record_frame _ _ _ _ _ _ ?_
      intro hx
      exact hkey (by rw [hx])
    have hone : process_one env domain v4c (some a) false true s m failed
        = ((update_dns_record (env (s ++ "." ++ domain) "AAAA")
              (s ++ "." ++ domain) (IpAddr.V6 a) "AAAA" m).2.1,
           failed || !(update_dns_record (env (s ++ "." ++ domain) "AAAA")
              (s ++ "." ++ domain) (IpAddr.V6 a) "AAAA" m).1,
           [⟨s ++ "." ++ domain, "AAAA", IpAddr.V6 a,
              (update_dns_record (env (s ++ "." ++ domain) "AAAA")
                (s ++ "." ++ domain) (IpAddr.V6 a) "AAAA" m).2.2⟩]) := by
      cases v4c <;> rfl
    constructor
    · simp only [process_subdomains, hone, List.map_cons]
      simp [(ih _ _).1]
    · intro key hkey
      simp only [process_subdomains, hone]
      rw [(ih _ _).2 key hkey]
      exact hframe key hkey

/-- C8: in a cycle where the discovered IPv4 address equals the cached one
and the discovered IPv6 address is present and differs from the cached one,
the writes issued are exactly one AAAA record per managed name — no
A-record call is made — and no A-record cache entry changes. -/
theorem claim8_only_aaaa_written (env : GatewayEnv) (domain : String)
    (subdomains : List String) (ipv4 : Option Ipv4Addr)
    (ipv6 : Option Ipv6Addr) (st : LoopState)
    (h4 : ipv4 = st.ipv4_cache) (h6s : ipv6.isSome = true)
    (h6ne : ipv6 ≠ st.ipv6_cache) :
    ((run_cycle env domain subdomains ipv4 ipv6 st).2.2.1.map
        fun w => (w.name, w.rtype))
      = subdomains.map (fun s => (s ++ "." ++ domain, "AAAA"))
    ∧ ∀ n : String,
        (run_cycle env domain subdomains ipv4 ipv6 st).1.known_dns_ids
          (n, "A")
        = st.known_dns_ids (n, "A") := by
  subst h4
  obtain ⟨a, ha⟩ := Option.isSome_iff_exists.mp h6s
  subst ha
  have h6ne' : st.ipv6_cache ≠ some a := fun h => h6ne h.symm
  have hd4 : decide_family st.ipv4_cache st.ipv4_cache
      = (false, st.ipv4_cache) := by
    simp [decide_family]
  have hd6 : decide_family st.ipv6_cache (some a) = (true, some a) := by
    simp [decide_family, h6ne']
  have hbody : (run_cycle env domain subdomains st.ipv4_cache (some a) st).2.2.1
        = (process_subdomains env domain st.ipv4_cache (some a) false true
            subdomains st.known_dns_ids false).2.2
      ∧ (run_cycle env domain subdomains st.ipv4_cache (some a) st).1.known_dns_ids
        = (process_subdomains env domain st.ipv4_cache (some a) false true
            subdomains st.known_dns_ids false).1 := by
    constructor <;> simp [run_cycle, hd4, hd6]
  refine ⟨?_, ?_⟩
  · rw [hbody.1]
    exact (process_subdomains_v6_only env domain st.ipv4_cache a
      subdomains st.known_dns_ids false).1
  · intro n
    rw [hbody.2]
    exact (process_subdomains_v6_only env domain st.ipv4_cache a
      subdomains st.known_dns_ids false).2 (n, "A")
      (show ("A" : String) ≠ "AAAA" from by decide)

/-- C8 witness: with two managed names, an unchanged IPv4 and a new IPv6,
the cycle writes exactly the two AAAA records and the A-record cache entry
for the first name is untouched. -/
theorem claim8_only_aaaa_written_witness :
    ((run_cycle (fun _ _ => ⟨.ok true, .ok "id9"⟩) "example.com"
        ["home", "office"] (some ⟨4⟩) (some ⟨6⟩)
        ⟨some ⟨4⟩, none, fun _ => none, 0⟩).2.2.1.map
        fun w => (w.name, w.rtype))
      = [("home.example.com", "AAAA"), ("office.example.com", "AAAA")]
    ∧ (run_cycle (fun _ _ => ⟨.ok true, .ok "id9"⟩) "example.com"
        ["home", "office"] (some ⟨4⟩) (some ⟨6⟩)
        ⟨some ⟨4⟩, none, fun _ => none, 0⟩).1.known_dns_ids
        ("home.example.com", "A")
      = none :=
  ⟨(claim8_only_aaaa_written (fun _ _ => ⟨.ok true, .ok "id9"⟩)
      "example.com" ["home", "office"] (some ⟨4⟩) (some ⟨6⟩)
      ⟨some ⟨4⟩, none, fun _ => none, 0⟩ rfl rfl (by decide)).1,
   (claim8_only_aaaa_written (fun _ _ => ⟨.ok true, .ok "id9"⟩)
      "example.com" ["home", "office"] (some ⟨4⟩) (some ⟨6⟩)
      ⟨some ⟨4⟩, none, fun _ => none, 0⟩ rfl rfl (by decide)).2
    "home.example.com"⟩

/-- C9: every cycle increments the failure counter if it failed and resets
it to zero otherwise; the sleep is `5 × sleep_time` exactly when the
resulting counter exceeds `max_failures`, and `sleep_time` otherwise; and
five consecutive failed cycles (counter 5) followed by a successful one end
with counter zero and a base-interval sleep. -/
theorem claim9_failure_counter (env : GatewayEnv) (domain : String)
    (subdomains : List String) (ipv4 : Option Ipv4Addr)
    (ipv6 : Option Ipv6Addr) (st : LoopState) :
    ((run_cycle env domain subdomains ipv4 ipv6 st).1.failure_count
      = if (run_cycle env domain subdomains ipv4 ipv6 st).2.1
        then st.failure_count + 1 else 0)
    ∧ ((run_cycle env domain subdomains ipv4 ipv6 st).2.2.2
      = if (run_cycle env domain subdomains ipv4 ipv6 st).1.failure_count
            > max_failures
        then sleep_time * 5 else sleep_time)
    ∧ ((run_cycle env domain subdomains ipv4 ipv6 st).2.2.2 = sleep_time * 5
      ↔ (run_cycle env domain subdomains ipv4 ipv6 st).1.failure_count
          > max_failures)
    ∧ ((fun s => (run_cycle (fun _ _ => ⟨.ok true, .ok "id1"⟩) "example.com"
          ["home"] none none s).1)^[5]
        ⟨none, none, fun _ => none, 0⟩).failure_count = 5
    ∧ (run_cycle (fun _ _ => ⟨.ok true, .ok "id1"⟩) "example.com" ["home"]
        none (some ⟨6⟩)
        ((fun s => (run_cycle (fun _ _ => ⟨.ok true, .ok "id1"⟩)
            "example.com" ["home"] none none s).1)^[5]
          ⟨none, none, fun _ => none, 0⟩)).1.failure_count = 0
    ∧ (run_cycle (fun _ _ => ⟨.ok true, .ok "id1"⟩) "example.com" ["home"]
        none (some ⟨6⟩)
        ((fun s => (run_cycle (fun _ _ => ⟨.ok true, .ok "id1"⟩)
            "example.com" ["home"] none none s).1)^[5]
          ⟨none, none, fun _ => none, 0⟩)).2.2.2 = sleep_time := by
  have hs : (run_cycle env domain subdomains ipv4 ipv6 st).2.2.2
      = if (run_cycle env domain subdomains ipv4 ipv6 st).1.failure_count
            > max_failures
        then sleep_time * 5 else sleep_time := rfl
  refine ⟨rfl, hs, ?_, ?_, ?_, ?_⟩
  · constructor
    · intro hsleep
      by_contra hnot
      rw [hs, if_neg hnot] at hsleep
      exact absurd hsleep (by decide)
    · intro hgt
      rw [hs, if_pos hgt]
  · rfl
  · rfl
  · rfl

/-- C9 witness: a concrete failing cycle (no addresses at all) increments
the counter from 0 to 1. -/
theorem claim9_failure_counter_witness :
    (run_cycle (fun _ _ => ⟨.ok true, .ok "id1"⟩) "example.com" ["home"]
        none none ⟨none, none, fun _ => none, 0⟩).1.failure_count
      = if (run_cycle (fun _ _ => ⟨.ok true, .ok "id1"⟩) "example.com"
            ["home"] none none ⟨none, none, fun _ => none, 0⟩).2.1
        then 0 + 1 else 0 :=
  (claim9_failure_counter (fun _ _ => ⟨.ok true, .ok "id1"⟩) "example.com"
    ["home"] none none ⟨none, none, fun _ => none, 0⟩).1

/-- C10: if one family's discovery yields no address while the other
family's discovered address is present and equals its cached value, the
cycle issues no writes, is not marked failed, and the failure counter
resets to zero. -/
theorem claim10_single_family_undeterminable (env : GatewayEnv)
    (domain : String) (subdomains : List String) (ipv4 : Option Ipv4Addr)
    (ipv6 : Option Ipv6Addr) (st : LoopState)
    (h : (ipv4 = none ∧ ipv6 = st.ipv6_cache ∧ ipv6.isSome = true)
       ∨ (ipv6 = none ∧ ipv4 = st.ipv4_cache ∧ ipv4.isSome = true)) :
    (run_cycle env domain subdomains ipv4 ipv6 st).2.2.1 = []
    ∧ (run_cycle env domain subdomains ipv4 ipv6 st).2.1 = false
    ∧ (run_cycle env domain subdomains ipv4 ipv6 st).1.failure_count = 0 := by
  rcases h with ⟨h4, h6, h6s⟩ | ⟨h6, h4, h4s⟩
  · subst h4
    subst h6
    obtain ⟨a, ha⟩ := Option.isSome_iff_exists.mp h6s
    by_cases hc : st.ipv4_cache = (none : Option Ipv4Addr)
    · refine ⟨?_, ?_, ?_⟩ <;> simp [run_cycle, decide_family, ha, hc]
    · refine ⟨?_, ?_, ?_⟩ <;> simp [run_cycle, decide_family, ha, hc]
  · subst h6
    subst h4
    obtain ⟨a, ha⟩ := Option.isSome_iff_exists.mp h4s
    by_cases hc : st.ipv6_cache = (none : Option Ipv6Addr)
    · refine ⟨?_, ?_, ?_⟩ <;> simp [run_cycle, decide_family, ha, hc]
    · refine ⟨?_, ?_, ?_⟩ <;> simp [run_cycle, decide_family, ha, hc]

/-- C10 witness: IPv4 undeterminable, IPv6 present and unchanged — no
writes, no failure, counter reset. -/
theorem claim10_single_family_undeterminable_witness :
    (run_cycle (fun _ _ => ⟨.ok true, .ok "id1"⟩) "example.com" ["home"]
        none (some ⟨6⟩) ⟨some ⟨4⟩, some ⟨6⟩, fun _ => none, 3⟩).2.2.1 = []
    ∧ (run_cycle (fun _ _ => ⟨.ok true, .ok "id1"⟩) "example.com" ["home"]
        none (some ⟨6⟩) ⟨some ⟨4⟩, some ⟨6⟩, fun _ => none, 3⟩).2.1 = false
    ∧ (run_cycle (fun _ _ => ⟨.ok true, .ok "id1"⟩) "example.com" ["home"]
        none (some ⟨6⟩)
        ⟨some ⟨4⟩, some ⟨6⟩, fun _ => none, 3⟩).1.failure_count = 0 :=
  claim10_single_family_undeterminable (fun _ _ => ⟨.ok true, .ok "id1"⟩)
    "example.com" ["home"] none (some ⟨6⟩)
    ⟨some ⟨4⟩, some ⟨6⟩, fun _ => none, 3⟩ (Or.inl ⟨rfl, rfl, rfl⟩)

end Cfddns
